import Mathlib

/-!
Verification development for the `consoler` console-logging facade
(`src/consoler/console.py`).

The embedding models Python values that can reach the logger as an
inductive `PyVal` (the `None` object, text strings, byte strings),
the ambient configuration (`settings.CONSOLE_LOG_LEVEL`, which may
raise on access, and `settings.DEBUG`) as a `Settings` record, and the
observable behaviour of each leveled emit method as an `Effects`
record: the list of strings written to the bound stream and the list
of calls forwarded to the external loguru sink (method plus string).
A `KeyError` escaping a method is modelled by `Except.error ()`.
-/

deriving instance DecidableEq for Except

namespace Consoler

/-- Python values that flow into the logger: `None`, `str`, `bytes`.
Bytes are lists of values in `[0, 256)`. -/
inductive PyVal where
  | pnone : PyVal
  | pstr : String → PyVal
  | pbytes : List (Fin 256) → PyVal
deriving DecidableEq, Repr

/-- Modelled from the spec: Python's `str()` on the values above.
`str(None) = "None"`, `str` on text is the identity, and `str` on a
bytes object is its `b\x27...\x27` literal form (only the fact that it
starts with `b\x27` matters to the code under verification). -/
def pyStr : PyVal → String
  | .pnone => "None"
  | .pstr s => s
  | .pbytes l => "b\x27" ++ String.mk (l.map fun b => Char.ofNat b.val) ++ "\x27"

/-- Modelled from the spec: Python truthiness of the values above
(`None`, the empty string and the empty bytes object are falsy). -/
def pyTruthy : PyVal → Bool
  | .pnone => false
  | .pstr s => !(s == "")
  | .pbytes l => !(l.isEmpty)

/-- Modelled from the spec: `bytes.decode("utf-8")` — a standard
strict UTF-8 decoder over the byte list, rejecting truncated
sequences, bad continuation bytes, overlong encodings, surrogates and
code points above `0x10FFFF`. -/
def utf8Chars : List Nat → Option (List Char)
  | [] => some []
  | b1 :: t1 =>
    if b1 < 0x80 then
      match utf8Chars t1 with
      | some cs => some (Char.ofNat b1 :: cs)
      | none => none
    else if 0xC2 ≤ b1 ∧ b1 < 0xE0 then
      match t1 with
      | b2 :: t2 =>
        if 0x80 ≤ b2 ∧ b2 < 0xC0 then
          match utf8Chars t2 with
          | some cs => some (Char.ofNat ((b1 % 0x20) * 0x40 + b2 % 0x40) :: cs)
          | none => none
        else none
      | [] => none
    else if 0xE0 ≤ b1 ∧ b1 < 0xF0 then
      match t1 with
      | b2 :: b3 :: t3 =>
        if 0x80 ≤ b2 ∧ b2 < 0xC0 ∧ 0x80 ≤ b3 ∧ b3 < 0xC0 then
          let cp := (b1 % 0x10) * 0x1000 + (b2 % 0x40) * 0x40 + b3 % 0x40
          if 0x800 ≤ cp ∧ ¬(0xD800 ≤ cp ∧ cp ≤ 0xDFFF) then
            match utf8Chars t3 with
            | some cs => some (Char.ofNat cp :: cs)
            | none => none
          else none
        else none
      | _ => none
    else if 0xF0 ≤ b1 ∧ b1 < 0xF5 then
      match t1 with
      | b2 :: b3 :: b4 :: t4 =>
        if 0x80 ≤ b2 ∧ b2 < 0xC0 ∧ 0x80 ≤ b3 ∧ b3 < 0xC0 ∧ 0x80 ≤ b4 ∧ b4 < 0xC0 then
          let cp := (b1 % 8) * 0x40000 + (b2 % 0x40) * 0x1000 + (b3 % 0x40) * 0x40 + b4 % 0x40
          if 0x10000 ≤ cp ∧ cp ≤ 0x10FFFF then
            match utf8Chars t4 with
            | some cs => some (Char.ofNat cp :: cs)
            | none => none
          else none
        else none
      | _ => none
    else none

/-- `bytes.decode("utf-8")` on a byte list, as an `Option`. -/
def utf8Decode (l : List (Fin 256)) : Option String :=
  match utf8Chars (l.map Fin.val) with
  | some cs => some (String.mk cs)
  | none => none

/-- Modelled from the spec: `bytes.decode("latin-1")` — total, each
byte maps to the code point of the same value. -/
def latin1Decode (l : List (Fin 256)) : String :=
  String.mk (l.map fun b => Char.ofNat b.val)

/-- Modelled from the spec: `bytes.decode("ascii")` — succeeds exactly
when every byte is below `0x80`. -/
def asciiDecode (l : List (Fin 256)) : Option String :=
  if l.all (fun b => b.val < 0x80) then some (latin1Decode l) else none

/-- Modelled from the spec: Python whitespace as recognised by
`str.strip()` (the ASCII whitespace characters). -/
def pyIsSpace (c : Char) : Bool :=
  c = ' ' || c = '\t' || c = '\n' || c = '\x0d' || c = '\x0b' || c = '\x0c'

/-- Modelled from the spec: Python's `str.strip()` — drop whitespace
from both ends. -/
def pyStrip (s : String) : String :=
  String.mk (((s.data.dropWhile pyIsSpace).reverse.dropWhile pyIsSpace).reverse)

/-- One `val.decode(codec)` attempt inside `decode`: text and `None`
have no `.decode` method, so the attempt raises (returns `none`);
bytes run the codec. -/
def pyDecodeAttempt (codec : List (Fin 256) → Option String) : PyVal → Option String
  | .pbytes l => codec l
  | _ => none

/-- `decode` from `src/consoler/console.py` lines 214-240: `None`,
values whose `str()` is empty, and values whose stripped `str()` is
`"NULL"` map to `None`; otherwise try `.decode` with UTF-8, then
Latin-1, then ASCII, returning the first success; if every attempt
raises, return the value unchanged. -/
def decode (val : PyVal) : PyVal :=
  if val = PyVal.pnone ∨ pyStr val = "" then PyVal.pnone
  else if pyStrip (pyStr val) = "NULL" then PyVal.pnone
  else
    match pyDecodeAttempt utf8Decode val with
    | some r => PyVal.pstr r
    | none =>
      match pyDecodeAttempt (fun l => some (latin1Decode l)) val with
      | some r => PyVal.pstr r
      | none =>
        match pyDecodeAttempt asciiDecode val with
        | some r => PyVal.pstr r
        | none => val

/-- `LOG_LEVELS` from `src/consoler/console.py` lines 28-35, as a
lookup returning `none` where Python raises `KeyError`. -/
def LOG_LEVELS (k : String) : Option Nat :=
  if k = "LOG" then some 0
  else if k = "INFO" then some 1
  else if k = "SUCCESS" then some 2
  else if k = "TEMPLATE" then some 3
  else if k = "WARN" then some 4
  else if k = "ERROR" then some 5
  else none

/-- The ANSI clear-to-end-of-line sequence (`CLEAR` in the source). -/
def CLEAR : String := "\x1b[K"

/-- Modelled from the spec: the `colours` module is an external
collaborator (not under `src/`); each colour function wraps its
argument between an ANSI colour code and a reset. -/
def colourWrap (code : String) (s : String) : String :=
  code ++ s ++ "\x1b[0m"

/-- Modelled from the spec: `colours.blue`. -/
def blue (s : String) : String := colourWrap "\x1b[34m" s

/-- Modelled from the spec: `colours.cyan`. -/
def cyan (s : String) : String := colourWrap "\x1b[36m" s

/-- Modelled from the spec: `colours.green`. -/
def green (s : String) : String := colourWrap "\x1b[32m" s

/-- Modelled from the spec: `colours.magenta`. -/
def magenta (s : String) : String := colourWrap "\x1b[35m" s

/-- Modelled from the spec: `colours.orange`. -/
def orange (s : String) : String := colourWrap "\x1b[38;5;214m" s

/-- Modelled from the spec: `colours.red`. -/
def red (s : String) : String := colourWrap "\x1b[31m" s

/-- Modelled from the spec: `colours.bg_blue` (background colour). -/
def bg_blue (s : String) : String := colourWrap "\x1b[44m" s

/-- The ambient configuration the logger reads on every call:
`settings.CONSOLE_LOG_LEVEL` (whose access may raise, hence
`Except Unit String`) and `settings.DEBUG`. -/
structure Settings where
  CONSOLE_LOG_LEVEL : Except Unit String
  DEBUG : Bool
deriving DecidableEq, Repr

/-- The sink (loguru) methods the logger forwards to. -/
inductive SinkMethod where
  | info : SinkMethod
  | warning : SinkMethod
  | error : SinkMethod
  | success : SinkMethod
deriving DecidableEq, Repr

/-- Observable effects of one emit call: strings written to the bound
stream (in order) and calls forwarded to the external sink. -/
structure Effects where
  streamWrites : List String
  sinkCalls : List (SinkMethod × String)
deriving DecidableEq, Repr

/-- `Logger._check_log_level` (`src/consoler/console.py` lines 60-77):
read `settings.CONSOLE_LOG_LEVEL`, defaulting to `"WARN"` when the
read raises; look both level names up in `LOG_LEVELS` (a missing key
raises `KeyError`, modelled by `Except.error ()`); emit when the
calling level is at or above the threshold. -/
def check_log_level (s : Settings) (called_level : String) : Except Unit Bool :=
  let level_str :=
    match s.CONSOLE_LOG_LEVEL with
    | .ok v => v
    | .error _ => "WARN"
  match LOG_LEVELS level_str with
  | none => .error ()
  | some level =>
    match LOG_LEVELS called_level with
    | none => .error ()
    | some called => .ok (decide (called ≥ level))

/-- `Logger._ts`: the magenta-coloured clock string. The clock value
itself (`arrow.now().format(...)`) is an external input, passed in. -/
def Logger.ts (now : String) : String := magenta now

/-- `Logger._output` (`src/consoler/console.py` lines 93-94): the
string printed to the stream, newline from `print` included. A falsy
`extra` renders as the empty string; the message goes through
`decode` and is interpolated with `str()`. -/
def output_line (pfx : String) (msg : PyVal) (extra : PyVal) : String :=
  pfx ++ "\n> " ++ pyStr (decode msg) ++ " " ++
    (if pyTruthy extra then pyStr extra else "") ++ "\n"

/-- The f-string forwarded to the sink by `info`/`warn`/`error`/
`success`/`template`: `f '{prefix} - {msg} - {extra}'` (raw `msg`,
not decoded; `extra` interpolated even when `None`). -/
def sink_line (pfx : String) (msg : PyVal) (extra : PyVal) : String :=
  pfx ++ " - " ++ pyStr msg ++ " - " ++ pyStr extra

/-- `Logger.log` (`src/consoler/console.py` lines 99-105): filter at
level `LOG`, then print one line to the stream; never touches the
sink. `now` and `pos` stand for the clock reading and the resolved
caller position. -/
def Logger.log (s : Settings) (now pos : String)
    (msg : PyVal := .pnone) (extra : PyVal := .pnone) : Except Unit Effects :=
  match check_log_level s "LOG" with
  | .error e => .error e
  | .ok false => .ok ⟨[], []⟩
  | .ok true =>
    let pfx := Logger.ts now ++ " - " ++ cyan "LOG" ++ " - " ++ pos
    .ok ⟨[output_line pfx msg extra], []⟩

/-- `Logger.info` (`src/consoler/console.py` lines 107-120): filter at
level `INFO`; no stream write; forward to `guru.info` only when the
sink is importable (`g`, for `USE_GURU`) and `settings.DEBUG is
False`. -/
def Logger.info (g : Bool) (s : Settings) (now pos : String)
    (msg : PyVal) (extra : PyVal := .pnone) : Except Unit Effects :=
  match check_log_level s "INFO" with
  | .error e => .error e
  | .ok false => .ok ⟨[], []⟩
  | .ok true =>
    let pfx := Logger.ts now ++ " - " ++ blue "INFO" ++ " - " ++ pos
    .ok ⟨[], if g && (s.DEBUG == false)
             then [(SinkMethod.info, sink_line pfx msg extra)] else []⟩

/-- `Logger.warn` (`src/consoler/console.py` lines 122-136): filter at
level `WARN`; print one line to the stream, and additionally forward
to `guru.warning` when the sink is importable and `DEBUG` is false. -/
def Logger.warn (g : Bool) (s : Settings) (now pos : String)
    (msg : PyVal) (extra : PyVal := .pnone) : Except Unit Effects :=
  match check_log_level s "WARN" with
  | .error e => .error e
  | .ok false => .ok ⟨[], []⟩
  | .ok true =>
    let pfx := Logger.ts now ++ " - " ++ orange "WARN" ++ " - " ++ pos
    .ok ⟨[output_line pfx msg extra],
         if g && (s.DEBUG == false)
         then [(SinkMethod.warning, sink_line pfx msg extra)] else []⟩

/-- `Logger.error` (`src/consoler/console.py` lines 138-151): filter
at level `ERROR`; no stream write; forward to `guru.error` under the
same gating. -/
def Logger.error (g : Bool) (s : Settings) (now pos : String)
    (msg : PyVal) (extra : PyVal := .pnone) : Except Unit Effects :=
  match check_log_level s "ERROR" with
  | .error e => .error e
  | .ok false => .ok ⟨[], []⟩
  | .ok true =>
    let pfx := Logger.ts now ++ " - " ++ red "ERROR" ++ " - " ++ pos
    .ok ⟨[], if g && (s.DEBUG == false)
             then [(SinkMethod.error, sink_line pfx msg extra)] else []⟩

/-- `Logger.success` (`src/consoler/console.py` lines 153-166): filter
at level `SUCCESS`; no stream write; forward to `guru.success` under
the same gating. -/
def Logger.success (g : Bool) (s : Settings) (now pos : String)
    (msg : PyVal) (extra : PyVal := .pnone) : Except Unit Effects :=
  match check_log_level s "SUCCESS" with
  | .error e => .error e
  | .ok false => .ok ⟨[], []⟩
  | .ok true =>
    let pfx := Logger.ts now ++ " - " ++ green "SUCCESS" ++ " - " ++ pos
    .ok ⟨[], if g && (s.DEBUG == false)
             then [(SinkMethod.success, sink_line pfx msg extra)] else []⟩

/-- `Logger.template` (`src/consoler/console.py` lines 168-181):
filter at level `TEMPLATE`; no stream write; forwards to
`guru.success` (the sink's success-equivalent method) under the same
gating. -/
def Logger.template (g : Bool) (s : Settings) (now pos : String)
    (msg : PyVal) (extra : PyVal := .pnone) : Except Unit Effects :=
  match check_log_level s "TEMPLATE" with
  | .error e => .error e
  | .ok false => .ok ⟨[], []⟩
  | .ok true =>
    let pfx := Logger.ts now ++ " - " ++ magenta "TEMPLATE" ++ " - " ++ pos
    .ok ⟨[], if g && (s.DEBUG == false)
             then [(SinkMethod.success, sink_line pfx msg extra)] else []⟩

/-- The six leveled emit operations, for statements quantified over
all of them. -/
inductive Op where
  | log : Op
  | info : Op
  | success : Op
  | template : Op
  | warn : Op
  | error : Op
deriving DecidableEq, Repr

/-- The severity ordinal of each operation (its `LOG_LEVELS` value). -/
def Op.severity : Op → Nat
  | .log => 0
  | .info => 1
  | .success => 2
  | .template => 3
  | .warn => 4
  | .error => 5

/-- How many direct stream writes the operation performs when it
passes the filter (from the source: only LOG and WARN print). -/
def Op.streams : Op → Nat
  | .log => 1
  | .warn => 1
  | _ => 0

/-- Whether the operation forwards to the sink when it passes the
filter (every operation except LOG). -/
def Op.sinks : Op → Bool
  | .log => false
  | _ => true

/-- Dispatch to the six emit methods. -/
def Op.emit : Op → Bool → Settings → String → String → PyVal → PyVal → Except Unit Effects
  | .log, _, s, now, pos, msg, extra => Logger.log s now pos msg extra
  | .info, g, s, now, pos, msg, extra => Logger.info g s now pos msg extra
  | .success, g, s, now, pos, msg, extra => Logger.success g s now pos msg extra
  | .template, g, s, now, pos, msg, extra => Logger.template g s now pos msg extra
  | .warn, g, s, now, pos, msg, extra => Logger.warn g s now pos msg extra
  | .error, g, s, now, pos, msg, extra => Logger.error g s now pos msg extra

/-- The mutable state of the `Logger` instance touched by `progress`:
the spinner index and the sticky progress flag. -/
structure LoggerState where
  spindex : Nat
  writing_progress : Bool
deriving DecidableEq, Repr

/-- The ten spinner frames from `Logger.progress`. -/
def spinner_frames : List String :=
  ["⠋", "⠙", "⠹", "⠸", "⠼", "⠴", "⠦", "⠧", "⠇", "⠏"]

/-- The spinner-index update at the top of `Logger.progress`: reset to
0 at the last frame index, otherwise increment. -/
def progressStep (i : Nat) : Nat :=
  if i = spinner_frames.length - 1 then 0 else i + 1

/-- `math.floor(perc / 5)` from `Logger.progress`. -/
def progressBlocks (perc : Int) : Int := Int.fdiv perc 5

/-- `math.ceil((100 - perc) / 5)` from `Logger.progress`, via
`ceil x = -floor (-x)`. -/
def progressSpaces (perc : Int) : Int := -(Int.fdiv (-(100 - perc)) 5)

/-- Python string repetition `s * n`: empty for non-positive counts. -/
def pyRepeat (s : String) (n : Int) : String :=
  String.join (List.replicate n.toNat s)

/-- `f '{perc:.4f}'` for an integral percentage. -/
def formatPerc (perc : Int) : String := toString perc ++ ".0000"

/-- The progress line written by `Logger.progress` (carriage return at
the end, no newline); `i` is the already-advanced spinner index. -/
def progressLine (i : Nat) (perc : Int) (msg : String) : String :=
  " [" ++ pyRepeat (bg_blue " ") (progressBlocks perc)
    ++ pyRepeat " " (progressSpaces perc) ++ "] "
    ++ magenta (spinner_frames.getD i "") ++ " " ++ formatPerc perc ++ "% "
    ++ blue msg ++ "\r"

/-- `Logger.progress` (`src/consoler/console.py` lines 183-202):
advance the spinner index, clear the line, write the bar, set the
sticky flag. Returns the new state and the stream writes in order. -/
def Logger.progress (st : LoggerState) (msg : String := "") (perc : Int := 0) :
    LoggerState × List String :=
  let i := progressStep st.spindex
  (⟨i, true⟩, ["\r" ++ CLEAR, progressLine i perc msg])

/-- `n` consecutive `progress` calls (message and percent defaulted),
tracking only the state. -/
def progressIter : Nat → LoggerState → LoggerState
  | 0, st => st
  | n + 1, st => progressIter n (Logger.progress st "" 0).1

theorem check_log_level_eq (s : Settings) (lvl cname : String) (t c : Nat)
    (hs : s.CONSOLE_LOG_LEVEL = Except.ok lvl) (ht : LOG_LEVELS lvl = some t)
    (hc : LOG_LEVELS cname = some c) :
    check_log_level s cname = Except.ok (decide (c ≥ t)) := by
  simp only [check_log_level, hs, ht, hc]

theorem decode_null_inputs (msg : PyVal)
    (hm : msg = PyVal.pnone ∨ pyStr msg = "" ∨ pyStrip (pyStr msg) = "NULL") :
    decode msg = PyVal.pnone := by
  unfold decode
  by_cases h0 : (msg = PyVal.pnone ∨ pyStr msg = "")
  · rw [if_pos h0]
  · rcases hm with h | h | h
    · exact absurd (Or.inl h) h0
    · exact absurd (Or.inr h) h0
    · rw [if_neg h0, if_pos h]

/-- C1: for each of the six leveled emit operations, a threshold
strictly above the call's severity yields no stream write and no sink
call; a threshold at or below it yields exactly one stream write for
LOG and WARN (zero for the others) and exactly one sink call for
INFO, SUCCESS, TEMPLATE, WARN and ERROR, the sink call gated on the
sink being importable and the debug flag being false. -/
theorem c1_level_gating (o : Op) (g : Bool) (s : Settings) (now pos : String)
    (msg extra : PyVal) (lvl : String) (t : Nat)
    (hs : s.CONSOLE_LOG_LEVEL = Except.ok lvl) (ht : LOG_LEVELS lvl = some t) :
    (Op.severity o < t → Op.emit o g s now pos msg extra = Except.ok ⟨[], []⟩) ∧
    (t ≤ Op.severity o →
      ∃ e, Op.emit o g s now pos msg extra = Except.ok e ∧
        e.streamWrites.length = Op.streams o ∧
        e.sinkCalls.length = (if Op.sinks o && (g && !s.DEBUG) then 1 else 0)) := by
  cases o <;>
    constructor <;>
    intro h <;>
    simp only [Op.severity] at h <;>
    simp only [Op.emit, Op.streams, Op.sinks, Logger.log, Logger.info, Logger.success,
      Logger.template, Logger.warn, Logger.error,
      check_log_level_eq s lvl "LOG" t 0 hs ht rfl,
      check_log_level_eq s lvl "INFO" t 1 hs ht rfl,
      check_log_level_eq s lvl "SUCCESS" t 2 hs ht rfl,
      check_log_level_eq s lvl "TEMPLATE" t 3 hs ht rfl,
      check_log_level_eq s lvl "WARN" t 4 hs ht rfl,
      check_log_level_eq s lvl "ERROR" t 5 hs ht rfl]
  all_goals
    first
      | (rw [decide_eq_false (by omega)]; try rfl)
      | (rw [decide_eq_true (by omega)];
         exact ⟨_, rfl, by rfl, by cases g <;> cases hd : s.DEBUG <;> simp [hd]⟩)

/-- C1 witness: with threshold WARN a LOG call is silent; with
threshold LOG an INFO call makes exactly one sink call and no stream
write. -/
theorem c1_level_gating_witness :
    Op.emit Op.log true ⟨Except.ok "WARN", false⟩ "t" "p" PyVal.pnone PyVal.pnone
      = Except.ok ⟨[], []⟩ ∧
    (∃ e, Op.emit Op.info true ⟨Except.ok "LOG", false⟩ "t" "p" (PyVal.pstr "m") PyVal.pnone
      = Except.ok e ∧
        e.streamWrites.length = Op.streams Op.info ∧
        e.sinkCalls.length = (if Op.sinks Op.info && (true && !(false : Bool)) then 1 else 0)) :=
  ⟨(c1_level_gating Op.log true ⟨Except.ok "WARN", false⟩ "t" "p" PyVal.pnone PyVal.pnone
      "WARN" 4 rfl rfl).1 (by decide),
   (c1_level_gating Op.info true ⟨Except.ok "LOG", false⟩ "t" "p" (PyVal.pstr "m") PyVal.pnone
      "LOG" 0 rfl rfl).2 (by decide)⟩

/-- C8: when reading `settings.CONSOLE_LOG_LEVEL` raises, every emit
call recovers locally, behaves exactly as with threshold WARN, and
surfaces no error to the caller. -/
theorem c8_config_failure_defaults_warn (o : Op) (g d : Bool) (now pos : String)
    (msg extra : PyVal) :
    (∃ e, Op.emit o g ⟨Except.error (), d⟩ now pos msg extra = Except.ok e) ∧
    Op.emit o g ⟨Except.error (), d⟩ now pos msg extra
      = Op.emit o g ⟨Except.ok "WARN", d⟩ now pos msg extra := by
  cases o <;> exact ⟨⟨_, rfl⟩, rfl⟩

/-- C10: when `settings.CONSOLE_LOG_LEVEL` reads successfully but is
not one of the six level names, every emit call raises `KeyError`
from the `LOG_LEVELS` lookup instead of defaulting or emitting. -/
theorem c10_invalid_level_raises (o : Op) (g d : Bool) (now pos : String)
    (msg extra : PyVal) (bad : String) (hbad : LOG_LEVELS bad = none) :
    Op.emit o g ⟨Except.ok bad, d⟩ now pos msg extra = Except.error () := by
  have hc : ∀ c, check_log_level ⟨Except.ok bad, d⟩ c = Except.error () := by
    intro c
    simp only [check_log_level, hbad]
  cases o <;>
    simp only [Op.emit, Logger.log, Logger.info, Logger.success, Logger.template,
      Logger.warn, Logger.error, hc]

/-- C10 witness: the threshold string `"DEBUG"` (not a level name)
makes a WARN call raise. -/
theorem c10_invalid_level_raises_witness :
    Op.emit Op.warn true ⟨Except.ok "DEBUG", false⟩ "t" "p" (PyVal.pstr "m") PyVal.pnone
      = Except.error () :=
  c10_invalid_level_raises Op.warn true false "t" "p" (PyVal.pstr "m") PyVal.pnone
    "DEBUG" rfl

/-- C2: INFO, SUCCESS, TEMPLATE and ERROR never write to the stream
(sink only); TEMPLATE routes its forwarded string to the sink's
success method; a filtered-through WARN both writes one stream line
and forwards one string to the sink's warning method. -/
theorem c2_sink_only_and_routing (g : Bool) (s : Settings) (now pos : String)
    (msg extra : PyVal) (lvl : String) (t : Nat)
    (hs : s.CONSOLE_LOG_LEVEL = Except.ok lvl) (ht : LOG_LEVELS lvl = some t) :
    (∀ e, Logger.info g s now pos msg extra = Except.ok e → e.streamWrites = []) ∧
    (∀ e, Logger.success g s now pos msg extra = Except.ok e → e.streamWrites = []) ∧
    (∀ e, Logger.template g s now pos msg extra = Except.ok e → e.streamWrites = []) ∧
    (∀ e, Logger.error g s now pos msg extra = Except.ok e → e.streamWrites = []) ∧
    (g = true → s.DEBUG = false →
      (t ≤ 1 → ∃ str, Logger.info g s now pos msg extra
          = Except.ok ⟨[], [(SinkMethod.info, str)]⟩) ∧
      (t ≤ 2 → ∃ str, Logger.success g s now pos msg extra
          = Except.ok ⟨[], [(SinkMethod.success, str)]⟩) ∧
      (t ≤ 3 → ∃ str, Logger.template g s now pos msg extra
          = Except.ok ⟨[], [(SinkMethod.success, str)]⟩) ∧
      (t ≤ 5 → ∃ str, Logger.error g s now pos msg extra
          = Except.ok ⟨[], [(SinkMethod.error, str)]⟩) ∧
      (t ≤ 4 → ∃ w str, Logger.warn g s now pos msg extra
          = Except.ok ⟨[w], [(SinkMethod.warning, str)]⟩)) := by
  refine ⟨?_, ?_, ?_, ?_, ?_⟩
  · simp only [Logger.info, check_log_level_eq s lvl "INFO" t 1 hs ht rfl]
    cases decide (1 ≥ t) <;> (intro e he; injection he with h2; subst h2; rfl)
  · simp only [Logger.success, check_log_level_eq s lvl "SUCCESS" t 2 hs ht rfl]
    cases decide (2 ≥ t) <;> (intro e he; injection he with h2; subst h2; rfl)
  · simp only [Logger.template, check_log_level_eq s lvl "TEMPLATE" t 3 hs ht rfl]
    cases decide (3 ≥ t) <;> (intro e he; injection he with h2; subst h2; rfl)
  · simp only [Logger.error, check_log_level_eq s lvl "ERROR" t 5 hs ht rfl]
    cases decide (5 ≥ t) <;> (intro e he; injection he with h2; subst h2; rfl)
  · intro hg hd
    refine ⟨?_, ?_, ?_, ?_, ?_⟩ <;>
      intro hle <;>
      simp only [Logger.info, Logger.success, Logger.template, Logger.error, Logger.warn,
        check_log_level_eq s lvl "INFO" t 1 hs ht rfl,
        check_log_level_eq s lvl "SUCCESS" t 2 hs ht rfl,
        check_log_level_eq s lvl "TEMPLATE" t 3 hs ht rfl,
        check_log_level_eq s lvl "ERROR" t 5 hs ht rfl,
        check_log_level_eq s lvl "WARN" t 4 hs ht rfl] <;>
      rw [decide_eq_true (by omega)] <;>
      simp only [hg, hd] <;>
      first
        | exact ⟨_, rfl⟩
        | exact ⟨_, _, rfl⟩

/-- C3: with the debug flag true no emit call forwards anything to
the sink, while the stream writes of every emit call are identical to
the debug-flag-false case. -/
theorem c3_debug_true_suppresses_sink (o : Op) (g : Bool) (lvl : Except Unit String)
    (now pos : String) (msg extra : PyVal) :
    (∀ e, Op.emit o g ⟨lvl, true⟩ now pos msg extra = Except.ok e → e.sinkCalls = []) ∧
    Except.map Effects.streamWrites (Op.emit o g ⟨lvl, true⟩ now pos msg extra)
      = Except.map Effects.streamWrites (Op.emit o g ⟨lvl, false⟩ now pos msg extra) := by
  have hck : ∀ c d, check_log_level ⟨lvl, d⟩ c = check_log_level ⟨lvl, true⟩ c :=
    fun c d => rfl
  cases o
  case log =>
    constructor
    · simp only [Op.emit, Logger.log]
      cases hc : check_log_level ⟨lvl, true⟩ "LOG"
      · intro e he
        exact Except.noConfusion he
      · rename_i b
        cases b <;> (intro e he; injection he with h2; subst h2; simp)
    · first
        | rfl
        | (simp only [Op.emit, Logger.log]
           rw [hck "LOG" false]
           cases check_log_level ⟨lvl, true⟩ "LOG"
           · rfl
           · rename_i b
             cases b <;> rfl)
  case info =>
    constructor
    · simp only [Op.emit, Logger.info]
      cases hc : check_log_level ⟨lvl, true⟩ "INFO"
      · intro e he
        exact Except.noConfusion he
      · rename_i b
        cases b <;> (intro e he; injection he with h2; subst h2; simp)
    · first
        | rfl
        | (simp only [Op.emit, Logger.info]
           rw [hck "INFO" false]
           cases check_log_level ⟨lvl, true⟩ "INFO"
           · rfl
           · rename_i b
             cases b <;> rfl)
  case success =>
    constructor
    · simp only [Op.emit, Logger.success]
      cases hc : check_log_level ⟨lvl, true⟩ "SUCCESS"
      · intro e he
        exact Except.noConfusion he
      · rename_i b
        cases b <;> (intro e he; injection he with h2; subst h2; simp)
    · first
        | rfl
        | (simp only [Op.emit, Logger.success]
           rw [hck "SUCCESS" false]
           cases check_log_level ⟨lvl, true⟩ "SUCCESS"
           · rfl
           · rename_i b
             cases b <;> rfl)
  case template =>
    constructor
    · simp only [Op.emit, Logger.template]
      cases hc : check_log_level ⟨lvl, true⟩ "TEMPLATE"
      · intro e he
        exact Except.noConfusion he
      · rename_i b
        cases b <;> (intro e he; injection he with h2; subst h2; simp)
    · first
        | rfl
        | (simp only [Op.emit, Logger.template]
           rw [hck "TEMPLATE" false]
           cases check_log_level ⟨lvl, true⟩ "TEMPLATE"
           · rfl
           · rename_i b
             cases b <;> rfl)
  case warn =>
    constructor
    · simp only [Op.emit, Logger.warn]
      cases hc : check_log_level ⟨lvl, true⟩ "WARN"
      · intro e he
        exact Except.noConfusion he
      · rename_i b
        cases b <;> (intro e he; injection he with h2; subst h2; simp)
    · first
        | rfl
        | (simp only [Op.emit, Logger.warn]
           rw [hck "WARN" false]
           cases check_log_level ⟨lvl, true⟩ "WARN"
           · rfl
           · rename_i b
             cases b <;> rfl)
  case error =>
    constructor
    · simp only [Op.emit, Logger.error]
      cases hc : check_log_level ⟨lvl, true⟩ "ERROR"
      · intro e he
        exact Except.noConfusion he
      · rename_i b
        cases b <;> (intro e he; injection he with h2; subst h2; simp)
    · first
        | rfl
        | (simp only [Op.emit, Logger.error]
           rw [hck "ERROR" false]
           cases check_log_level ⟨lvl, true⟩ "ERROR"
           · rfl
           · rename_i b
             cases b <;> rfl)


/-- C2 witness: with threshold LOG, TEMPLATE forwards one string to
the sink's success method, and WARN both writes a stream line and
forwards to the sink's warning method. -/
theorem c2_sink_only_and_routing_witness :
    (∃ str, Logger.template true ⟨Except.ok "LOG", false⟩ "t" "p" (PyVal.pstr "m") PyVal.pnone
        = Except.ok ⟨[], [(SinkMethod.success, str)]⟩) ∧
    (∃ w str, Logger.warn true ⟨Except.ok "LOG", false⟩ "t" "p" (PyVal.pstr "m") PyVal.pnone
        = Except.ok ⟨[w], [(SinkMethod.warning, str)]⟩) :=
  ⟨((c2_sink_only_and_routing true ⟨Except.ok "LOG", false⟩ "t" "p" (PyVal.pstr "m") PyVal.pnone
      "LOG" 0 rfl rfl).2.2.2.2 rfl rfl).2.2.1 (by decide),
   ((c2_sink_only_and_routing true ⟨Except.ok "LOG", false⟩ "t" "p" (PyVal.pstr "m") PyVal.pnone
      "LOG" 0 rfl rfl).2.2.2.2 rfl rfl).2.2.2.2 (by decide)⟩

/-- C3 witness: a debug-true INFO call is sink-silent and writes the
same (empty) stream output as the debug-false call. -/
theorem c3_debug_true_suppresses_sink_witness :
    Effects.sinkCalls ⟨[], []⟩ = [] ∧
    Except.map Effects.streamWrites
        (Op.emit Op.info true ⟨Except.ok "LOG", true⟩ "t" "p" (PyVal.pstr "m") PyVal.pnone)
      = Except.map Effects.streamWrites
        (Op.emit Op.info true ⟨Except.ok "LOG", false⟩ "t" "p" (PyVal.pstr "m") PyVal.pnone) :=
  ⟨(c3_debug_true_suppresses_sink Op.info true (Except.ok "LOG") "t" "p" (PyVal.pstr "m")
      PyVal.pnone).1 ⟨[], []⟩ (by decide),
   (c3_debug_true_suppresses_sink Op.info true (Except.ok "LOG") "t" "p" (PyVal.pstr "m")
      PyVal.pnone).2⟩

/-- C4: the progress bar writes floor(perc / 5) filled blocks and
ceil((100 - perc) / 5) trailing spaces (characterised here by the
floor and ceiling inequalities), with blocks 0/spaces 20 at 0,
blocks 20/spaces 0 at 100 and blocks 9/spaces 11 at 47; the formula
is unclamped (negative counts out of range) yet rendering stays total
and never crashes: a negative repetition count renders as empty and
every call still produces its two stream writes. -/
theorem c4_progress_bar_arithmetic :
    (∀ perc : Int, 5 * progressBlocks perc ≤ perc ∧ perc < 5 * progressBlocks perc + 5 ∧
      100 - perc ≤ 5 * progressSpaces perc ∧ 5 * progressSpaces perc < 100 - perc + 5) ∧
    progressBlocks 0 = 0 ∧ progressSpaces 0 = 20 ∧
    progressBlocks 100 = 20 ∧ progressSpaces 100 = 0 ∧
    progressBlocks 47 = 9 ∧ progressSpaces 47 = 11 ∧
    progressBlocks (-3) = -1 ∧ progressSpaces 150 = -10 ∧
    pyRepeat " " (progressSpaces 150) = "" ∧
    pyRepeat (bg_blue " ") (progressBlocks (-3)) = "" ∧
    (∀ (st : LoggerState) (msg : String) (perc : Int),
      ((Logger.progress st msg perc).2).length = 2) := by
  refine ⟨?_, by decide, by decide, by decide, by decide, by decide, by decide, by decide,
    by decide, by decide, by decide, fun st msg perc => rfl⟩
  intro perc
  unfold progressBlocks progressSpaces
  rw [Int.fdiv_eq_ediv _ (by norm_num), Int.fdiv_eq_ediv _ (by norm_num)]
  omega

/-- C7 counterexample: eleven consecutive `progress` calls do NOT
return the spinner index to its starting value — from 0 they leave it
at 1 (the cycle has length 10, not 11). -/
theorem c7_eleven_calls_cex :
    ¬ (progressIter 11 ⟨0, false⟩).spindex = 0 := by decide

/-- C7 amended: ten consecutive `progress` calls return the spinner
index to its starting value (for any start in [0, 9]); every call
keeps the index in [0, 9]; eleven calls from 0 leave it at 1. -/
theorem c7_spinner_cycle :
    (∀ i : Nat, i ≤ 9 → ∀ wp : Bool, progressIter 10 ⟨i, wp⟩ = ⟨i, true⟩) ∧
    (∀ (st : LoggerState) (msg : String) (perc : Int), st.spindex ≤ 9 →
      ((Logger.progress st msg perc).1).spindex ≤ 9) ∧
    (progressIter 11 ⟨0, false⟩).spindex = 1 := by
  refine ⟨by decide, ?_, by decide⟩
  intro st msg perc h
  show progressStep st.spindex ≤ 9
  unfold progressStep
  have hlen : spinner_frames.length = 10 := rfl
  rw [hlen]
  split <;> omega

/-- C7 witness: ten calls from index 3 return to 3; a call from
index 9 stays within [0, 9]. -/
theorem c7_spinner_cycle_witness :
    progressIter 10 ⟨3, false⟩ = ⟨3, true⟩ ∧
    ((Logger.progress ⟨9, true⟩ "m" 50).1).spindex ≤ 9 :=
  ⟨c7_spinner_cycle.1 3 (by decide) false,
   c7_spinner_cycle.2.1 ⟨9, true⟩ "m" 50 (by decide)⟩

/-- C5: `decode` maps `None`, the empty string and any trimmed
`"NULL"` string to `None`; text such as `"hello"` that has no byte
`.decode` method is returned unchanged; bytes are decoded with UTF-8
first and fall back to Latin-1 (which always succeeds, so the first
successful codec in the UTF-8 / Latin-1 / ASCII chain wins). -/
theorem c5_decode_behaviour :
    decode PyVal.pnone = PyVal.pnone ∧
    decode (PyVal.pstr "") = PyVal.pnone ∧
    decode (PyVal.pstr "NULL") = PyVal.pnone ∧
    decode (PyVal.pstr "hello") = PyVal.pstr "hello" ∧
    (∀ w : String, ¬(w = "" ∨ pyStrip w = "NULL") → decode (PyVal.pstr w) = PyVal.pstr w) ∧
    (∀ l : List (Fin 256),
      pyStr (PyVal.pbytes l) ≠ "" → pyStrip (pyStr (PyVal.pbytes l)) ≠ "NULL" →
      (∀ u, utf8Decode l = some u → decode (PyVal.pbytes l) = PyVal.pstr u) ∧
      (utf8Decode l = none → decode (PyVal.pbytes l) = PyVal.pstr (latin1Decode l))) := by
  refine ⟨by decide, by decide, by decide, by decide, ?_, ?_⟩
  · intro w hw
    rw [not_or] at hw
    obtain ⟨hw1, hw2⟩ := hw
    unfold decode
    rw [if_neg (by simp [pyStr, hw1]), if_neg (by simpa [pyStr] using hw2)]
    rfl
  · intro l h1 h2
    constructor
    · intro u hu
      unfold decode
      rw [if_neg (by simp [h1]), if_neg h2]
      simp only [pyDecodeAttempt, hu]
    · intro hn
      unfold decode
      rw [if_neg (by simp [h1]), if_neg h2]
      simp only [pyDecodeAttempt, hn]

/-- C5 witness: a plain string survives unchanged; the invalid-UTF-8
byte 0xFF falls back to Latin-1; the UTF-8 bytes C3 A9 decode to
an accented letter. -/
theorem c5_decode_behaviour_witness :
    decode (PyVal.pstr "x") = PyVal.pstr "x" ∧
    decode (PyVal.pbytes [255]) = PyVal.pstr (latin1Decode [255]) ∧
    decode (PyVal.pbytes [195, 169]) = PyVal.pstr "é" :=
  ⟨c5_decode_behaviour.2.2.2.2.1 "x" (by decide),
   (c5_decode_behaviour.2.2.2.2.2 [255] (by decide) (by decide)).2 (by decide),
   (c5_decode_behaviour.2.2.2.2.2 [195, 169] (by decide) (by decide)).1 "é" (by decide)⟩

/-- C9 (implicit): for a LOG or WARN call that passes the filter,
a message of `None`, `""` or trimmed `"NULL"` makes `decode` return
`None`, and the stream line then carries the literal text `"None"`
in the message position after `"> "`. -/
theorem c9_null_message_renders_none (g : Bool) (s : Settings) (now pos : String)
    (extra : PyVal) (lvl : String) (t : Nat)
    (hs : s.CONSOLE_LOG_LEVEL = Except.ok lvl) (ht : LOG_LEVELS lvl = some t)
    (msg : PyVal)
    (hm : msg = PyVal.pnone ∨ pyStr msg = "" ∨ pyStrip (pyStr msg) = "NULL") :
    decode msg = PyVal.pnone ∧
    (t = 0 → Logger.log s now pos msg extra = Except.ok
      ⟨[Logger.ts now ++ " - " ++ cyan "LOG" ++ " - " ++ pos ++ "\n> " ++ "None" ++ " " ++
        (if pyTruthy extra then pyStr extra else "") ++ "\n"], []⟩) ∧
    (t ≤ 4 → ∃ sc, Logger.warn g s now pos msg extra = Except.ok
      ⟨[Logger.ts now ++ " - " ++ orange "WARN" ++ " - " ++ pos ++ "\n> " ++ "None" ++ " " ++
        (if pyTruthy extra then pyStr extra else "") ++ "\n"], sc⟩) := by
  have hd := decode_null_inputs msg hm
  refine ⟨hd, ?_, ?_⟩
  · intro h0
    simp only [Logger.log, check_log_level_eq s lvl "LOG" t 0 hs ht rfl]
    rw [decide_eq_true (by omega)]
    simp only [output_line, hd, pyStr]
  · intro h4
    simp only [Logger.warn, check_log_level_eq s lvl "WARN" t 4 hs ht rfl]
    rw [decide_eq_true (by omega)]
    simp only [output_line, hd, pyStr]
    exact ⟨_, rfl⟩

/-- C9 witness: logging the message `" NULL "` at threshold LOG
writes a line whose message position reads `None`. -/
theorem c9_null_message_renders_none_witness :
    decode (PyVal.pstr " NULL ") = PyVal.pnone ∧
    Logger.log ⟨Except.ok "LOG", false⟩ "t" "p" (PyVal.pstr " NULL ") PyVal.pnone
      = Except.ok
        ⟨[Logger.ts "t" ++ " - " ++ cyan "LOG" ++ " - " ++ "p" ++ "\n> " ++ "None" ++ " " ++
          (if pyTruthy PyVal.pnone then pyStr PyVal.pnone else "") ++ "\n"], []⟩ :=
  ⟨(c9_null_message_renders_none true ⟨Except.ok "LOG", false⟩ "t" "p" PyVal.pnone
      "LOG" 0 rfl rfl (PyVal.pstr " NULL ") (Or.inr (Or.inr (by decide)))).1,
   (c9_null_message_renders_none true ⟨Except.ok "LOG", false⟩ "t" "p" PyVal.pnone
      "LOG" 0 rfl rfl (PyVal.pstr " NULL ") (Or.inr (Or.inr (by decide)))).2.1 rfl⟩

/-- C6 counterexample: an INFO call with `extra` omitted (defaulted
to `None`) forwards a sink string ending in the literal text
`" - None"` — the claim that no rendered output ever contains `None`
in the extra position is false for sink-forwarded strings. -/
theorem c6_sink_extra_renders_none_cex :
    Logger.info true ⟨Except.ok "LOG", false⟩ "t" "p" (PyVal.pstr "m")
      = Except.ok ⟨[], [(SinkMethod.info,
          "\x1b[35mt\x1b[0m - \x1b[34mINFO\x1b[0m - p - m - None")]⟩ := by decide

/-- C6 amended: with `extra` omitted, the direct stream lines of LOG
and WARN render an empty trailing segment (never the text `None`),
but the strings forwarded to the sink by INFO (and the other sink
levels) interpolate the literal text `None` in the extra position. -/
theorem c6_extra_omitted_rendering (g : Bool) (s : Settings) (now pos : String)
    (msg : PyVal) (lvl : String) (t : Nat)
    (hs : s.CONSOLE_LOG_LEVEL = Except.ok lvl) (ht : LOG_LEVELS lvl = some t) :
    (t = 0 → Logger.log s now pos msg = Except.ok
      ⟨[Logger.ts now ++ " - " ++ cyan "LOG" ++ " - " ++ pos ++ "\n> " ++
        pyStr (decode msg) ++ " " ++ "" ++ "\n"], []⟩) ∧
    (t ≤ 4 → ∃ sc, Logger.warn g s now pos msg = Except.ok
      ⟨[Logger.ts now ++ " - " ++ orange "WARN" ++ " - " ++ pos ++ "\n> " ++
        pyStr (decode msg) ++ " " ++ "" ++ "\n"], sc⟩) ∧
    (t ≤ 1 → g = true → s.DEBUG = false → Logger.info g s now pos msg = Except.ok
      ⟨[], [(SinkMethod.info, Logger.ts now ++ " - " ++ blue "INFO" ++ " - " ++ pos
        ++ " - " ++ pyStr msg ++ " - " ++ "None")]⟩) := by
  refine ⟨?_, ?_, ?_⟩
  · intro h0
    simp only [Logger.log, check_log_level_eq s lvl "LOG" t 0 hs ht rfl]
    rw [decide_eq_true (by omega)]
    rfl
  · intro h4
    simp only [Logger.warn, check_log_level_eq s lvl "WARN" t 4 hs ht rfl]
    rw [decide_eq_true (by omega)]
    exact ⟨_, rfl⟩
  · intro h1 hg hdbg
    simp only [Logger.info, check_log_level_eq s lvl "INFO" t 1 hs ht rfl]
    rw [decide_eq_true (by omega)]
    simp only [hg, hdbg]
    rfl

/-- C6 amended witness: a LOG call at threshold LOG with `extra`
omitted writes its line with an empty trailing segment. -/
theorem c6_extra_omitted_rendering_witness :
    Logger.log ⟨Except.ok "LOG", false⟩ "t" "p" (PyVal.pstr "m") = Except.ok
      ⟨[Logger.ts "t" ++ " - " ++ cyan "LOG" ++ " - " ++ "p" ++ "\n> " ++
        pyStr (decode (PyVal.pstr "m")) ++ " " ++ "" ++ "\n"], []⟩ :=
  (c6_extra_omitted_rendering true ⟨Except.ok "LOG", false⟩ "t" "p" (PyVal.pstr "m")
    "LOG" 0 rfl rfl).1 rfl

end Consoler
